import Mathlib

/-!
Verification development for the posture-metric engine of
`pose_extractor.py` (PostureAnalysis repository).

The engine is embedded shallowly: landmark data is exact (`ℚ` coordinates,
`ℤ` pixel coordinates), geometry is carried out over `ℝ`, fallible results
are `Option`.  Python truthiness of the optional height (`if height_cm:`)
is modelled by `heightTruthy`; truthiness of a float result (`if angle:`)
is modelled by an explicit comparison with `0`.
-/

namespace PoseAnalysis

/-- One detected body joint, as produced by `extract_landmarks`:
normalized coordinates `x, y, z`, a `visibility` confidence, and
pixel coordinates `x_px, y_px`. -/
structure Landmark where
  x : ℚ
  y : ℚ
  z : ℚ
  visibility : ℚ
  x_px : ℤ
  y_px : ℤ
  deriving DecidableEq

/-- A per-view landmark set: partial map from joint index to landmark
(`landmarks[idx]` / `dict.get`). -/
abbrev LandmarkSet := Nat → Option Landmark

/-- The `landmarks_dict` built in `main`: one optional landmark set per view. -/
structure LandmarksDict where
  front : Option LandmarkSet
  left : Option LandmarkSet
  right : Option LandmarkSet
  back : Option LandmarkSet

/-- One computed metric entry: `{'value': ..., 'unit': ..., 'confidence': ...}`. -/
structure Metric where
  value : ℝ
  unit : String
  confidence : ℚ

/-- The metrics mapping assembled by `calculate_metrics`; a `none` field is
a key absent from the Python dict. -/
structure MetricsReport where
  craniovertebral_angle : Option Metric
  forward_head_posture : Option Metric
  shoulder_height_delta : Option Metric
  thoracic_kyphosis : Option Metric
  knee_valgus_varus : Option Metric
  foot_progression_angle : Option Metric

/-- The `calibration` record of `main`'s JSON output. -/
structure Calibration where
  user_height_cm : Option ℚ
  method : String

/-- The part of `main`'s JSON output relevant to the engine:
the metrics and the calibration record. -/
structure PoseOutput where
  metrics : MetricsReport
  calibration : Calibration

/-- Python `round(x, 1)` on an exact rational value. -/
def round1q (x : ℚ) : ℚ := (round (10 * x) : ℤ) / 10

/-- Python `round(x, 1)` on a real value. -/
noncomputable def round1R (x : ℝ) : ℝ := ((round (10 * x) : ℤ) : ℝ) / 10

/-- `math.degrees`. -/
noncomputable def degrees (x : ℝ) : ℝ := x * (180 / Real.pi)

/-- `math.atan2 y x`: four-quadrant arctangent, result in `(-π, π]`. -/
noncomputable def atan2 (y x : ℝ) : ℝ :=
  if 0 < x then Real.arctan (y / x)
  else if x < 0 ∧ 0 ≤ y then Real.arctan (y / x) + Real.pi
  else if x < 0 ∧ y < 0 then Real.arctan (y / x) - Real.pi
  else if x = 0 ∧ 0 < y then Real.pi / 2
  else if x = 0 ∧ y < 0 then -(Real.pi / 2)
  else 0

/-- Planar Euclidean distance between two points, as used by the three
`math.sqrt` side lengths in `calculate_angle`. -/
noncomputable def side (p q : ℝ × ℝ) : ℝ :=
  Real.sqrt ((q.1 - p.1) ^ 2 + (q.2 - p.2) ^ 2)

/-- `calculate_angle(p1, p2, p3)`: the angle at `p2` by the law of cosines,
in degrees; `None` when `a * b == 0`, with the cosine clamped to `[-1, 1]`. -/
noncomputable def calculate_angle (p1 p2 p3 : ℝ × ℝ) : Option ℝ :=
  let a := side p1 p2
  let b := side p2 p3
  let c := side p1 p3
  if a * b = 0 then none
  else
    let cos_angle := (a ^ 2 + b ^ 2 - c ^ 2) / (2 * a * b)
    let clamped := max (-1) (min 1 cos_angle)
    some (degrees (Real.arccos clamped))

/-- Python truthiness of the optional float `user_height_cm`
(`None` and `0` are falsy). -/
def heightTruthy : Option ℚ → Bool
  | none => false
  | some v => decide (v ≠ 0)

/-- `front.get(28) or front.get(27)`: right ankle, else left ankle. -/
def getAnkle (f : LandmarkSet) : Option Landmark :=
  (f 28).orElse fun _ => f 27

/-- The calibration block of `calculate_metrics`: the pixel-to-millimeter
factor, defaulting to `1`. -/
def px_to_mm_calc (front : Option LandmarkSet) (user_height_cm : Option ℚ) : ℚ :=
  match front, user_height_cm with
  | some f, some h =>
    if h ≠ 0 then
      match f 0, getAnkle f with
      | some nose, some ankle =>
        let body_height_px := |nose.y_px - ankle.y_px|
        if 0 < body_height_px then (h * 10) / (body_height_px : ℚ) else 1
      | _, _ => 1
    else 1
  | _, _ => 1

/-- Rule 1, craniovertebral angle: right-view ear (8) and shoulder (12),
`90 - |degrees (atan2 dy dx)|` with `dx, dy` = ear − shoulder. -/
noncomputable def cvaRule (right : Option LandmarkSet) : Option Metric :=
  match right with
  | none => none
  | some r =>
    match r 8, r 12 with
    | some ear, some shoulder =>
      if 1/2 < ear.visibility ∧ 1/2 < shoulder.visibility then
        let dx : ℝ := (ear.x : ℝ) - (shoulder.x : ℝ)
        let dy : ℝ := (ear.y : ℝ) - (shoulder.y : ℝ)
        let angle := degrees (atan2 dy dx)
        some { value := round1R (90 - |angle|), unit := "degrees",
               confidence := min ear.visibility shoulder.visibility }
      else none
    | _, _ => none

/-- Rule 2, forward head posture: right-view ear (8) and shoulder (12),
`|ear.x_px - shoulder.x_px| * px_to_mm`. -/
noncomputable def fhpRule (right : Option LandmarkSet) (px_to_mm : ℚ) : Option Metric :=
  match right with
  | none => none
  | some r =>
    match r 8, r 12 with
    | some ear, some shoulder =>
      if 1/2 < ear.visibility ∧ 1/2 < shoulder.visibility then
        some { value := ((round1q ((|ear.x_px - shoulder.x_px| : ℚ) * px_to_mm) : ℚ) : ℝ),
               unit := "mm",
               confidence := min ear.visibility shoulder.visibility }
      else none
    | _, _ => none

/-- Rule 3, shoulder height delta: front-view shoulders (11, 12),
`|left.y_px - right.y_px| * px_to_mm`. -/
noncomputable def shdRule (front : Option LandmarkSet) (px_to_mm : ℚ) : Option Metric :=
  match front with
  | none => none
  | some f =>
    match f 11, f 12 with
    | some ls, some rs =>
      if 1/2 < ls.visibility ∧ 1/2 < rs.visibility then
        some { value := ((round1q ((|ls.y_px - rs.y_px| : ℚ) * px_to_mm) : ℚ) : ℝ),
               unit := "mm",
               confidence := min ls.visibility rs.visibility }
      else none
    | _, _ => none

/-- Rule 4, thoracic kyphosis: right-view shoulder (12) and hip (24),
`180 - calculate_angle(shoulder, midpoint, hip)`; the metric is produced
only when the angle is truthy (not `None` and not `0`). -/
noncomputable def kyphosisRule (right : Option LandmarkSet) : Option Metric :=
  match right with
  | none => none
  | some r =>
    match r 12, r 24 with
    | some shoulder, some hip =>
      if 1/2 < shoulder.visibility ∧ 1/2 < hip.visibility then
        let mid : ℝ × ℝ := (((shoulder.x : ℝ) + (hip.x : ℝ)) / 2,
                            ((shoulder.y : ℝ) + (hip.y : ℝ)) / 2)
        match calculate_angle ((shoulder.x : ℝ), (shoulder.y : ℝ)) mid
                ((hip.x : ℝ), (hip.y : ℝ)) with
        | some angle =>
          if angle = 0 then none
          else
            some { value := round1R (180 - angle), unit := "degrees",
                   confidence := min shoulder.visibility hip.visibility * (7/10) }
        | none => none
      else none
    | _, _ => none

/-- Rule 5, knee valgus/varus: front-view left hip (23), knee (25),
ankle (27), `180 - calculate_angle(hip, knee, ankle)`; produced only
when the angle is truthy. -/
noncomputable def kneeRule (front : Option LandmarkSet) : Option Metric :=
  match front with
  | none => none
  | some f =>
    match f 23, f 25, f 27 with
    | some hip, some knee, some ankle =>
      if 1/2 < hip.visibility ∧ 1/2 < knee.visibility ∧ 1/2 < ankle.visibility then
        match calculate_angle ((hip.x : ℝ), (hip.y : ℝ)) ((knee.x : ℝ), (knee.y : ℝ))
                ((ankle.x : ℝ), (ankle.y : ℝ)) with
        | some angle =>
          if angle = 0 then none
          else
            some { value := round1R (180 - angle), unit := "degrees",
                   confidence := min hip.visibility (min knee.visibility ankle.visibility) }
        | none => none
      else none
    | _, _, _ => none

/-- Rule 6, foot progression angle: front-view left heel (29) and left
foot index (31), `|degrees (atan2 dx dy)|` with `dx, dy` = toe − heel. -/
noncomputable def fpaRule (front : Option LandmarkSet) : Option Metric :=
  match front with
  | none => none
  | some f =>
    match f 29, f 31 with
    | some heel, some toe =>
      if 1/2 < heel.visibility ∧ 1/2 < toe.visibility then
        let dx : ℝ := (toe.x : ℝ) - (heel.x : ℝ)
        let dy : ℝ := (toe.y : ℝ) - (heel.y : ℝ)
        let angle := degrees (atan2 dx dy)
        some { value := round1R |angle|, unit := "degrees",
               confidence := min heel.visibility toe.visibility }
      else none
    | _, _ => none

/-- `calculate_metrics(landmarks_dict, user_height_cm)`: resolves the
calibration factor once, then evaluates the six rules.  The `left` and
`back` views are read into locals by the source but consulted by no rule. -/
noncomputable def calculate_metrics (landmarks_dict : LandmarksDict)
    (user_height_cm : Option ℚ) : MetricsReport :=
  let front := landmarks_dict.front
  let right := landmarks_dict.right
  let px_to_mm := px_to_mm_calc front user_height_cm
  { craniovertebral_angle := cvaRule right
    forward_head_posture := fhpRule right px_to_mm
    shoulder_height_delta := shdRule front px_to_mm
    thoracic_kyphosis := kyphosisRule right
    knee_valgus_varus := kneeRule front
    foot_progression_angle := fpaRule front }

/-- `main`'s JSON output: the metrics plus the calibration record, whose
`method` is `'user_provided' if height_cm else 'uncalibrated'`. -/
noncomputable def mainOutput (landmarks_dict : LandmarksDict)
    (height_cm : Option ℚ) : PoseOutput :=
  { metrics := calculate_metrics landmarks_dict height_cm
    calibration :=
      { user_height_cm := height_cm
        method := if heightTruthy height_cm then "user_provided" else "uncalibrated" } }

/-- A landmark with `z = 0`. -/
def lm (x y vis : ℚ) (xpx ypx : ℤ) : Landmark :=
  { x := x, y := y, z := 0, visibility := vis, x_px := xpx, y_px := ypx }

/-- Concrete front view used in witnesses: nose and right ankle (for
calibration), both shoulders (spec's shoulder-delta example), and a left
hip-knee-ankle chain forming a right angle at the knee. -/
def frontW : LandmarkSet := fun i =>
  if i = 0 then some (lm (1/2) (1/10) (9/10) 500 100)
  else if i = 28 then some (lm (1/2) (9/10) (9/10) 500 1100)
  else if i = 11 then some (lm (2/5) (1/5) (9/10) 400 200)
  else if i = 12 then some (lm (3/5) (1/5) (9/10) 600 215)
  else if i = 23 then some (lm 0 0 (9/10) 0 0)
  else if i = 25 then some (lm 0 1 (4/5) 0 100)
  else if i = 27 then some (lm 1 1 (7/10) 100 100)
  else none

/-- Concrete right view used in witnesses: the ear and shoulder of the
spec's CVA example, plus a hip for the kyphosis rule. -/
def rightW : LandmarkSet := fun i =>
  if i = 8 then some (lm (2/5) (3/10) (9/10) 40 30)
  else if i = 12 then some (lm (21/50) (1/2) (4/5) 42 50)
  else if i = 24 then some (lm (3/5) (9/10) (4/5) 60 90)
  else none

/-- Witness input: front and right views populated, left and back absent. -/
def dW : LandmarksDict := ⟨some frontW, none, some rightW, none⟩

/-- Same front and right views as `dW` but with non-absent left and back views. -/
def dW2 : LandmarksDict := ⟨some frontW, some fun _ => none, some rightW, some fun _ => none⟩

/-- Input with every view absent. -/
def dNone : LandmarksDict := ⟨none, none, none, none⟩

/-- The right-view confidence gate for the CVA and FHP rules fails:
view absent, ear or shoulder missing, or a visibility at or below `0.5`. -/
def cvaGateFails (right : Option LandmarkSet) : Prop :=
  right = none ∨ ∃ r, right = some r ∧
    (r 8 = none ∨ r 12 = none ∨
      ∃ ear shoulder, r 8 = some ear ∧ r 12 = some shoulder ∧
        (ear.visibility ≤ 1/2 ∨ shoulder.visibility ≤ 1/2))

/-- The calibration inputs are deficient: front view absent, nose and
ankle joints missing, or a zero nose-to-ankle pixel span. -/
def calibFallback (front : Option LandmarkSet) : Prop :=
  front = none ∨ ∃ f, front = some f ∧
    ((f 0 = none ∧ getAnkle f = none) ∨
      ∃ nose ankle, f 0 = some nose ∧ getAnkle f = some ankle ∧ nose.y_px = ankle.y_px)

lemma metrics_cva (d : LandmarksDict) (h : Option ℚ) :
    (calculate_metrics d h).craniovertebral_angle = cvaRule d.right := rfl

lemma metrics_fhp (d : LandmarksDict) (h : Option ℚ) :
    (calculate_metrics d h).forward_head_posture =
      fhpRule d.right (px_to_mm_calc d.front h) := rfl

lemma metrics_shd (d : LandmarksDict) (h : Option ℚ) :
    (calculate_metrics d h).shoulder_height_delta =
      shdRule d.front (px_to_mm_calc d.front h) := rfl

lemma metrics_kyphosis (d : LandmarksDict) (h : Option ℚ) :
    (calculate_metrics d h).thoracic_kyphosis = kyphosisRule d.right := rfl

lemma metrics_knee (d : LandmarksDict) (h : Option ℚ) :
    (calculate_metrics d h).knee_valgus_varus = kneeRule d.front := rfl

lemma metrics_fpa (d : LandmarksDict) (h : Option ℚ) :
    (calculate_metrics d h).foot_progression_angle = fpaRule d.front := rfl

lemma cvaRule_none_of_gate {right : Option LandmarkSet} (hg : cvaGateFails right) :
    cvaRule right = none := by
  rcases hg with rfl | ⟨r, rfl, h8 | h12 | ⟨ear, shoulder, h8, h12, hv⟩⟩
  · rfl
  · simp only [cvaRule, h8]
  · simp only [cvaRule, h12]
    rcases r 8 with _ | e <;> rfl
  · simp only [cvaRule, h8, h12]
    rw [if_neg]
    rintro ⟨hv1, hv2⟩
    rcases hv with hv | hv
    · exact absurd hv1 (not_lt.2 hv)
    · exact absurd hv2 (not_lt.2 hv)

lemma fhpRule_none_of_gate {right : Option LandmarkSet} (px : ℚ)
    (hg : cvaGateFails right) : fhpRule right px = none := by
  rcases hg with rfl | ⟨r, rfl, h8 | h12 | ⟨ear, shoulder, h8, h12, hv⟩⟩
  · rfl
  · simp only [fhpRule, h8]
  · simp only [fhpRule, h12]
    rcases r 8 with _ | e <;> rfl
  · simp only [fhpRule, h8, h12]
    rw [if_neg]
    rintro ⟨hv1, hv2⟩
    rcases hv with hv | hv
    · exact absurd hv1 (not_lt.2 hv)
    · exact absurd hv2 (not_lt.2 hv)

/-- C9: the metrics report depends only on the front and right views (and
the height); the left and back views are never consulted by any rule. -/
theorem C9_left_back_irrelevant (d1 d2 : LandmarksDict) (h : Option ℚ)
    (hf : d1.front = d2.front) (hr : d1.right = d2.right) :
    calculate_metrics d1 h = calculate_metrics d2 h := by
  simp only [calculate_metrics, hf, hr]

/-- C9 witness: two inputs agreeing on front and right but with different
left and back views produce identical reports. -/
theorem C9_witness : calculate_metrics dW none = calculate_metrics dW2 none :=
  C9_left_back_irrelevant dW dW2 none rfl rfl

/-- C5: if the right view is absent, or its ear (8) or shoulder (12) is
missing, or either visibility is at or below `0.5`, then both
`craniovertebral_angle` and `forward_head_posture` are absent from the
report, whatever the other views contain. -/
theorem C5_cva_fhp_absent (d : LandmarksDict) (h : Option ℚ)
    (hg : cvaGateFails d.right) :
    (calculate_metrics d h).craniovertebral_angle = none ∧
    (calculate_metrics d h).forward_head_posture = none := by
  rw [metrics_cva, metrics_fhp]
  exact ⟨cvaRule_none_of_gate hg, fhpRule_none_of_gate _ hg⟩

/-- C5 witness: with the right view absent (and a populated front view),
both right-view metrics are absent. -/
theorem C5_witness :
    (calculate_metrics ⟨some frontW, none, none, none⟩ none).craniovertebral_angle = none ∧
    (calculate_metrics ⟨some frontW, none, none, none⟩ none).forward_head_posture = none :=
  C5_cva_fhp_absent ⟨some frontW, none, none, none⟩ none (Or.inl rfl)

/-- C1 counterexample: with height `170` supplied and the front view
absent, `px_to_mm` does fall back to `1`, but the calibration record's
method is `"user_provided"`, not `"uncalibrated"` as the claim states. -/
theorem C1_counterexample :
    px_to_mm_calc dNone.front (some 170) = 1 ∧
    (mainOutput dNone (some 170)).calibration.method = "user_provided" ∧
    (mainOutput dNone (some 170)).calibration.method ≠ "uncalibrated" := by
  refine ⟨rfl, rfl, ?_⟩
  intro hc
  exact absurd hc (by decide)

/-- C1 amended: under any of the claim's degenerate calibration conditions
`px_to_mm = 1`, but the recorded method depends only on the truthiness of
the supplied height: it is `"user_provided"` for any nonzero height and
`"uncalibrated"` only for a zero height. -/
theorem C1_calibration_fallback (d : LandmarksDict) (v : ℚ)
    (hg : calibFallback d.front) :
    px_to_mm_calc d.front (some v) = 1 ∧
    (v ≠ 0 → (mainOutput d (some v)).calibration.method = "user_provided") ∧
    (v = 0 → (mainOutput d (some v)).calibration.method = "uncalibrated") := by
  refine ⟨?_, ?_, ?_⟩
  · rcases hg with hfr | ⟨f, hfr, hcase⟩
    · rw [hfr]
      rfl
    · rw [hfr]
      by_cases hv : v = 0
      · subst hv
        simp only [px_to_mm_calc, ne_eq, not_true_eq_false, if_false]
      · rcases hcase with ⟨h0, hank⟩ | ⟨nose, ankle, h0, hank, hspan⟩
        · simp only [px_to_mm_calc, if_pos hv, h0]
        · simp only [px_to_mm_calc, if_pos hv, h0, hank, hspan, sub_self, abs_zero,
            lt_self_iff_false, if_false]
  · intro hv
    show (if decide (v ≠ 0) = true then "user_provided" else "uncalibrated") = _
    rw [if_pos (decide_eq_true hv)]
  · intro hv
    subst hv
    rfl

/-- C1 witness: front view absent, height `170`: `px_to_mm = 1`, yet the
method reads `"user_provided"`. -/
theorem C1_witness :
    px_to_mm_calc dNone.front (some 170) = 1 ∧
    (mainOutput dNone (some 170)).calibration.method = "user_provided" := by
  obtain ⟨h1, h2, -⟩ := C1_calibration_fallback dNone 170 (Or.inl rfl)
  exact ⟨h1, h2 (by norm_num)⟩

/-- C2 counterexample: a negative height (`-170`) is truthy in Python, so
with a valid front view the code computes `px_to_mm = -1.7` (not `1`) and
records the method as `"user_provided"` (not `"uncalibrated"`). -/
theorem C2_counterexample :
    px_to_mm_calc (some frontW) (some (-170)) = -(17/10) ∧
    px_to_mm_calc (some frontW) (some (-170)) ≠ 1 ∧
    (mainOutput dW (some (-170))).calibration.method = "user_provided" := by
  have h0 : frontW 0 = some (lm (1/2) (1/10) (9/10) 500 100) := rfl
  have h28 : getAnkle frontW = some (lm (1/2) (9/10) (9/10) 500 1100) := rfl
  have habs : |(100 : ℤ) - 1100| = 1000 := by decide
  have hpx : px_to_mm_calc (some frontW) (some (-170)) = -(17/10) := by
    simp only [px_to_mm_calc, h0, h28, lm, habs]
    norm_num
  refine ⟨hpx, ?_, rfl⟩
  rw [hpx]
  norm_num

/-- C2 amended: for an absent or zero user height, calibration falls back
to `px_to_mm = 1` and the method is `"uncalibrated"`; the computation is a
total function, so it never fails on any height. -/
theorem C2_zero_height_fallback (d : LandmarksDict) (h : Option ℚ)
    (hz : h = none ∨ h = some 0) :
    px_to_mm_calc d.front h = 1 ∧
    (mainOutput d h).calibration.method = "uncalibrated" := by
  rcases hz with rfl | rfl
  · refine ⟨?_, rfl⟩
    rcases d.front with _ | f <;> rfl
  · refine ⟨?_, rfl⟩
    rcases d.front with _ | f
    · rfl
    · simp only [px_to_mm_calc, ne_eq, not_true_eq_false, if_false]

/-- C2 witness: zero height on a populated input gives `px_to_mm = 1` and
method `"uncalibrated"`. -/
theorem C2_witness :
    px_to_mm_calc dW.front (some 0) = 1 ∧
    (mainOutput dW (some 0)).calibration.method = "uncalibrated" :=
  C2_zero_height_fallback dW (some 0) (Or.inr rfl)

/-- C4: `calculate_angle` is total; when the adjacent side product is zero
(in particular for coincident points `p, p, q`) it returns `none` rather
than dividing by zero, and whenever the product is nonzero it returns a
value in `[0, 180]` degrees. -/
lemma degrees_arccos_bounds (y : ℝ) :
    0 ≤ degrees (Real.arccos y) ∧ degrees (Real.arccos y) ≤ 180 := by
  have hpi : 0 < Real.pi := Real.pi_pos
  unfold degrees
  constructor
  · exact mul_nonneg (Real.arccos_nonneg y) (by positivity)
  · calc Real.arccos y * (180 / Real.pi) ≤ Real.pi * (180 / Real.pi) :=
      mul_le_mul_of_nonneg_right (Real.arccos_le_pi y) (by positivity)
    _ = 180 := by field_simp

theorem C4_calculate_angle_total (p1 p2 p3 : ℝ × ℝ) :
    calculate_angle p1 p1 p3 = none ∧
    (side p1 p2 * side p2 p3 = 0 → calculate_angle p1 p2 p3 = none) ∧
    (side p1 p2 * side p2 p3 ≠ 0 →
      ∃ v, calculate_angle p1 p2 p3 = some v ∧ 0 ≤ v ∧ v ≤ 180) := by
  refine ⟨?_, ?_, ?_⟩
  · have hs : side p1 p1 = 0 := by simp [side]
    simp [calculate_angle, hs]
  · intro hab
    simp [calculate_angle, hab]
  · intro hab
    simp only [calculate_angle, if_neg hab]
    exact ⟨_, rfl, (degrees_arccos_bounds _).1, (degrees_arccos_bounds _).2⟩

/-- C4 witness: coincident points give `none`; a concrete right angle
(whose adjacent sides have length `1`) gives a value in `[0, 180]`. -/
theorem C4_witness :
    calculate_angle (0, 0) (0, 0) (1, 0) = none ∧
    ∃ v, calculate_angle (0, 0) (0, 1) (1, 1) = some v ∧ 0 ≤ v ∧ v ≤ 180 := by
  refine ⟨(C4_calculate_angle_total (0, 0) (0, 0) (1, 0)).1, ?_⟩
  apply (C4_calculate_angle_total (0, 0) (0, 1) (1, 1)).2.2
  have h1 : side ((0 : ℝ), (0 : ℝ)) (0, 1) = 1 := by
    simp [side]
  have h2 : side ((0 : ℝ), (1 : ℝ)) (1, 1) = 1 := by
    simp [side]
  rw [h1, h2]
  norm_num

/-- C6: whenever `knee_valgus_varus` is present, its confidence is exactly
the minimum of the left hip, knee and ankle visibilities. -/
theorem C6_knee_confidence (d : LandmarksDict) (h : Option ℚ) (m : Metric)
    (hm : (calculate_metrics d h).knee_valgus_varus = some m) :
    ∃ f hip knee ankle, d.front = some f ∧ f 23 = some hip ∧ f 25 = some knee ∧
      f 27 = some ankle ∧
      m.confidence = min hip.visibility (min knee.visibility ankle.visibility) := by
  rw [metrics_knee] at hm
  unfold kneeRule at hm
  split at hm
  · exact Option.noConfusion hm
  · rename_i f hf
    split at hm
    · rename_i hip knee ankle h23 h25 h27
      split at hm
      · split at hm
        · split at hm
          · exact Option.noConfusion hm
          · cases hm
            exact ⟨f, hip, knee, ankle, hf, h23, h25, h27, rfl⟩
        · exact Option.noConfusion hm
      · exact Option.noConfusion hm
    · exact Option.noConfusion hm

lemma right_angle_eval :
    calculate_angle ((0 : ℝ), (0 : ℝ)) (0, 1) (1, 1) = some 90 := by
  have h1 : side ((0 : ℝ), (0 : ℝ)) (0, 1) = 1 := by simp [side]
  have h2 : side ((0 : ℝ), (1 : ℝ)) (1, 1) = 1 := by simp [side]
  have h3 : side ((0 : ℝ), (0 : ℝ)) (1, 1) = Real.sqrt 2 := by
    simp [side]
    norm_num
  simp only [calculate_angle, h1, h2, h3]
  rw [if_neg (by norm_num)]
  have hs : Real.sqrt 2 ^ 2 = 2 := Real.sq_sqrt (by norm_num)
  rw [show ((1 : ℝ) ^ 2 + 1 ^ 2 - Real.sqrt 2 ^ 2) / (2 * 1 * 1) = 0 by rw [hs]; ring]
  rw [show ((-1 : ℝ) ⊔ (1 ⊓ 0)) = 0 by simp]
  rw [Real.arccos_zero]
  unfold degrees
  congr 1
  have hpi : Real.pi ≠ 0 := Real.pi_ne_zero
  field_simp
  ring

lemma knee_present :
    (calculate_metrics dW none).knee_valgus_varus =
      some ⟨round1R (180 - 90), "degrees",
        min (9/10 : ℚ) (min (4/5 : ℚ) (7/10 : ℚ))⟩ := by
  rw [metrics_knee]
  show kneeRule (some frontW) = _
  have h23 : frontW 23 = some (lm 0 0 (9/10) 0 0) := rfl
  have h25 : frontW 25 = some (lm 0 1 (4/5) 0 100) := rfl
  have h27 : frontW 27 = some (lm 1 1 (7/10) 100 100) := rfl
  have hcast : calculate_angle (((lm 0 0 (9/10) 0 0).x : ℝ), ((lm 0 0 (9/10) 0 0).y : ℝ))
      (((lm 0 1 (4/5) 0 100).x : ℝ), ((lm 0 1 (4/5) 0 100).y : ℝ))
      (((lm 1 1 (7/10) 100 100).x : ℝ), ((lm 1 1 (7/10) 100 100).y : ℝ)) = some 90 := by
    simp only [lm]
    push_cast
    exact right_angle_eval
  have h90 : ¬(90 : ℝ) = 0 := by norm_num
  simp only [kneeRule, h23, h25, h27]
  rw [if_pos (by refine ⟨by norm_num [lm], by norm_num [lm], by norm_num [lm]⟩)]
  rw [hcast]
  simp [h90, lm]

/-- C6 witness: on the concrete input the knee metric is present and its
confidence equals `min (9/10) (min (4/5) (7/10))`, the minimum of the three
consulted visibilities. -/
theorem C6_witness :
    ∃ m, (calculate_metrics dW none).knee_valgus_varus = some m ∧
      m.confidence = min (9/10 : ℚ) (min (4/5 : ℚ) (7/10 : ℚ)) := by
  refine ⟨_, knee_present, ?_⟩
  obtain ⟨f, hip, knee, ankle, hf, h23, h25, h27, hconf⟩ :=
    C6_knee_confidence dW none _ knee_present
  rw [hconf]
  have hfW : f = frontW := by
    have : (some frontW : Option LandmarkSet) = some f := hf
    exact (Option.some.inj this).symm
  subst hfW
  have e23 : hip = lm 0 0 (9/10) 0 0 := by
    have : some (lm 0 0 (9/10) 0 0) = some hip := h23
    exact (Option.some.inj this).symm
  have e25 : knee = lm 0 1 (4/5) 0 100 := by
    have : some (lm 0 1 (4/5) 0 100) = some knee := h25
    exact (Option.some.inj this).symm
  have e27 : ankle = lm 1 1 (7/10) 100 100 := by
    have : some (lm 1 1 (7/10) 100 100) = some ankle := h27
    exact (Option.some.inj this).symm
  subst e23 e25 e27
  rfl

/-- C7: whenever `shoulder_height_delta` is present, its value is the
rounded product of the shoulder pixel-height difference with the shared
calibration factor, and its unit is `"mm"`. -/
theorem C7_shoulder_delta (d : LandmarksDict) (h : Option ℚ) (f : LandmarkSet)
    (ls rs : Landmark) (m : Metric) (hf : d.front = some f)
    (h11 : f 11 = some ls) (h12 : f 12 = some rs)
    (hm : (calculate_metrics d h).shoulder_height_delta = some m) :
    m.value = ((round1q ((|ls.y_px - rs.y_px| : ℚ) * px_to_mm_calc d.front h) : ℚ) : ℝ) ∧
    m.unit = "mm" := by
  rw [metrics_shd, hf] at hm
  rw [hf]
  simp only [shdRule, h11, h12] at hm
  split at hm
  · cases hm
    exact ⟨rfl, rfl⟩
  · exact Option.noConfusion hm

lemma round1q_eval (n : ℤ) (x : ℚ) (h : 10 * x = (n : ℚ)) :
    round1q x = (n : ℚ) / 10 := by
  unfold round1q
  rw [h, round_intCast]

lemma shd_present :
    (calculate_metrics dW (some 170)).shoulder_height_delta =
      some ⟨((round1q ((|((200 : ℤ) : ℚ) - ((215 : ℤ) : ℚ)| : ℚ) *
          px_to_mm_calc dW.front (some 170)) : ℚ) : ℝ), "mm",
        min (9/10 : ℚ) (9/10 : ℚ)⟩ := by
  rw [metrics_shd]
  have h11 : frontW 11 = some (lm (2/5) (1/5) (9/10) 400 200) := rfl
  have h12 : frontW 12 = some (lm (3/5) (1/5) (9/10) 600 215) := rfl
  show shdRule (some frontW) (px_to_mm_calc dW.front (some 170)) = _
  simp only [shdRule, h11, h12]
  rw [if_pos ⟨by norm_num [lm], by norm_num [lm]⟩]
  rfl

/-- C7 witness: the spec's example — shoulders at `y_px = 200` and `215`,
calibration resolving to `1.7` from height `170` over a `1000`-pixel
nose-to-ankle span — yields value `25.5` and unit `"mm"`. -/
theorem C7_witness :
    ∃ m, (calculate_metrics dW (some 170)).shoulder_height_delta = some m ∧
      m.value = 25.5 ∧ m.unit = "mm" := by
  refine ⟨_, shd_present, ?_, ?_⟩
  · have hval := (C7_shoulder_delta dW (some 170) frontW
      (lm (2/5) (1/5) (9/10) 400 200) (lm (3/5) (1/5) (9/10) 600 215) _
      rfl rfl rfl shd_present).1
    rw [hval]
    have hpx : px_to_mm_calc dW.front (some 170) = 17/10 := by
      have h0 : frontW 0 = some (lm (1/2) (1/10) (9/10) 500 100) := rfl
      have h28 : getAnkle frontW = some (lm (1/2) (9/10) (9/10) 500 1100) := rfl
      have habs : |(100 : ℤ) - 1100| = 1000 := by decide
      show px_to_mm_calc (some frontW) (some 170) = 17/10
      simp only [px_to_mm_calc, h0, h28, lm, habs]
      norm_num
    rw [hpx]
    simp only [lm]
    rw [show |((200 : ℤ) : ℚ) - ((215 : ℤ) : ℚ)| = 15 by
      rw [show ((200 : ℤ) : ℚ) - ((215 : ℤ) : ℚ) = -15 by norm_num, abs_neg]
      exact abs_of_nonneg (by norm_num)]
    rw [round1q_eval 255 (15 * (17/10)) (by norm_num)]
    push_cast
    norm_num
  · exact (C7_shoulder_delta dW (some 170) frontW
      (lm (2/5) (1/5) (9/10) 400 200) (lm (3/5) (1/5) (9/10) 600 215) _
      rfl rfl rfl shd_present).2

lemma midpoint_angle_eq_180 (sx sy hx hy : ℝ) (hne : (sx, sy) ≠ (hx, hy)) :
    calculate_angle (sx, sy) ((sx + hx) / 2, (sy + hy) / 2) (hx, hy) = some 180 := by
  set D : ℝ := (hx - sx) ^ 2 + (hy - sy) ^ 2 with hD
  have hxy : sx ≠ hx ∨ sy ≠ hy := by
    by_contra hc
    push_neg at hc
    exact hne (by rw [hc.1, hc.2])
  have hD0 : 0 < D := by
    rcases hxy with hx' | hy'
    · have h1 : (0 : ℝ) < (hx - sx) ^ 2 := by
        have : hx - sx ≠ 0 := sub_ne_zero_of_ne (Ne.symm hx')
        positivity
      have h2 : (0 : ℝ) ≤ (hy - sy) ^ 2 := sq_nonneg _
      rw [hD]; linarith
    · have h1 : (0 : ℝ) < (hy - sy) ^ 2 := by
        have : hy - sy ≠ 0 := sub_ne_zero_of_ne (Ne.symm hy')
        positivity
      have h2 : (0 : ℝ) ≤ (hx - sx) ^ 2 := sq_nonneg _
      rw [hD]; linarith
  have ha : side (sx, sy) ((sx + hx) / 2, (sy + hy) / 2) = Real.sqrt (D / 4) := by
    unfold side
    congr 1
    rw [hD]; ring
  have hb : side ((sx + hx) / 2, (sy + hy) / 2) (hx, hy) = Real.sqrt (D / 4) := by
    unfold side
    congr 1
    rw [hD]; ring
  have hc : side (sx, sy) (hx, hy) = Real.sqrt D := by
    unfold side
    rfl
  have hab : Real.sqrt (D / 4) * Real.sqrt (D / 4) = D / 4 :=
    Real.mul_self_sqrt (by positivity)
  have hsq : Real.sqrt (D / 4) ^ 2 = D / 4 := Real.sq_sqrt (by positivity)
  have hsqD : Real.sqrt D ^ 2 = D := Real.sq_sqrt hD0.le
  simp only [calculate_angle, ha, hb, hc]
  rw [if_neg (by rw [hab]; positivity)]
  rw [show (Real.sqrt (D / 4) ^ 2 + Real.sqrt (D / 4) ^ 2 - Real.sqrt D ^ 2) /
      (2 * Real.sqrt (D / 4) * Real.sqrt (D / 4)) = -1 by
    rw [mul_assoc, hab, hsq, hsqD]
    rw [div_eq_iff (by positivity)]
    ring]
  rw [show ((-1 : ℝ) ⊔ (1 ⊓ (-1))) = -1 by
    rw [min_eq_right (by norm_num), max_self]]
  rw [Real.arccos_neg_one]
  unfold degrees
  rw [mul_div_assoc']
  rw [mul_comm, mul_div_assoc, div_self Real.pi_ne_zero]
  norm_num

/-- C3: whenever the thoracic kyphosis metric is computable (right view
with shoulder and hip present, both visibilities above `0.5`, the two
joints not coincident), it is present and its value is exactly `0` under
exact arithmetic: the synthetic vertex is the midpoint of shoulder and
hip, the angle there is `180°`, and `180 − 180 = 0`. -/
theorem C3_kyphosis_zero (d : LandmarksDict) (h : Option ℚ) (r : LandmarkSet)
    (s hp : Landmark) (hr : d.right = some r) (h12 : r 12 = some s)
    (h24 : r 24 = some hp) (hvs : 1/2 < s.visibility) (hvh : 1/2 < hp.visibility)
    (hne : (s.x, s.y) ≠ (hp.x, hp.y)) :
    ∃ m, (calculate_metrics d h).thoracic_kyphosis = some m ∧ m.value = 0 := by
  rw [metrics_kyphosis, hr]
  have hneR : (((s.x : ℝ)), ((s.y : ℝ))) ≠ (((hp.x : ℝ)), ((hp.y : ℝ))) := by
    intro hc
    apply hne
    have h1 : ((s.x : ℝ)) = ((hp.x : ℝ)) := congrArg Prod.fst hc
    have h2 : ((s.y : ℝ)) = ((hp.y : ℝ)) := congrArg Prod.snd hc
    have e1 : s.x = hp.x := by exact_mod_cast h1
    have e2 : s.y = hp.y := by exact_mod_cast h2
    rw [e1, e2]
  have hangle := midpoint_angle_eq_180 (s.x : ℝ) (s.y : ℝ) (hp.x : ℝ) (hp.y : ℝ) hneR
  simp only [kyphosisRule, h12, h24]
  rw [if_pos ⟨hvs, hvh⟩]
  rw [hangle]
  refine ⟨⟨round1R (180 - 180), "degrees",
    min s.visibility hp.visibility * (7/10)⟩, ?_, ?_⟩
  · exact if_neg (by norm_num)
  · show round1R (180 - 180) = 0
    unfold round1R
    norm_num

/-- C3 witness: on the concrete right view (distinct shoulder and hip,
both visibilities `0.8`) the kyphosis metric is present with value `0`. -/
theorem C3_witness :
    ∃ m, (calculate_metrics dW none).thoracic_kyphosis = some m ∧ m.value = 0 :=
  C3_kyphosis_zero dW none rightW (lm (21/50) (1/2) (4/5) 42 50)
    (lm (3/5) (9/10) (4/5) 60 90) rfl rfl rfl (by norm_num [lm]) (by norm_num [lm])
    (by
      intro hc
      have := congrArg Prod.fst hc
      norm_num [lm] at this)

lemma cvaRule_conf {right : Option LandmarkSet} {m : Metric}
    (h : cvaRule right = some m) : 1/2 < m.confidence := by
  unfold cvaRule at h
  split at h
  · exact Option.noConfusion h
  · split at h
    · split at h
      · rename_i hvis
        cases h
        exact lt_min hvis.1 hvis.2
      · exact Option.noConfusion h
    · exact Option.noConfusion h

lemma fhpRule_conf {right : Option LandmarkSet} {px : ℚ} {m : Metric}
    (h : fhpRule right px = some m) : 1/2 < m.confidence := by
  unfold fhpRule at h
  split at h
  · exact Option.noConfusion h
  · split at h
    · split at h
      · rename_i hvis
        cases h
        exact lt_min hvis.1 hvis.2
      · exact Option.noConfusion h
    · exact Option.noConfusion h

lemma shdRule_conf {front : Option LandmarkSet} {px : ℚ} {m : Metric}
    (h : shdRule front px = some m) : 1/2 < m.confidence := by
  unfold shdRule at h
  split at h
  · exact Option.noConfusion h
  · split at h
    · split at h
      · rename_i hvis
        cases h
        exact lt_min hvis.1 hvis.2
      · exact Option.noConfusion h
    · exact Option.noConfusion h

lemma kyphosisRule_conf {right : Option LandmarkSet} {m : Metric}
    (h : kyphosisRule right = some m) : 7/20 < m.confidence := by
  simp only [kyphosisRule] at h
  split at h
  · exact Option.noConfusion h
  · split at h
    · split at h
      · rename_i hvis
        split at h
        · split at h
          · exact Option.noConfusion h
          · cases h
            show (7 : ℚ)/20 < min _ _ * (7/10)
            nlinarith [lt_min hvis.1 hvis.2]
        · exact Option.noConfusion h
      · exact Option.noConfusion h
    · exact Option.noConfusion h

lemma kneeRule_conf {front : Option LandmarkSet} {m : Metric}
    (h : kneeRule front = some m) : 1/2 < m.confidence := by
  unfold kneeRule at h
  split at h
  · exact Option.noConfusion h
  · split at h
    · split at h
      · rename_i hvis
        split at h
        · split at h
          · exact Option.noConfusion h
          · cases h
            exact lt_min hvis.1 (lt_min hvis.2.1 hvis.2.2)
        · exact Option.noConfusion h
      · exact Option.noConfusion h
    · exact Option.noConfusion h

lemma fpaRule_conf {front : Option LandmarkSet} {m : Metric}
    (h : fpaRule front = some m) : 1/2 < m.confidence := by
  unfold fpaRule at h
  split at h
  · exact Option.noConfusion h
  · split at h
    · split at h
      · rename_i hvis
        cases h
        exact lt_min hvis.1 hvis.2
      · exact Option.noConfusion h
    · exact Option.noConfusion h

/-- C10: every metric present in the report has confidence strictly above
`0.5`, except `thoracic_kyphosis` whose confidence is strictly above
`0.35` (a minimum visibility above `0.5`, scaled by `0.7`). -/
theorem C10_confidence_invariant (d : LandmarksDict) (h : Option ℚ) (m : Metric) :
    (((calculate_metrics d h).craniovertebral_angle = some m ∨
      (calculate_metrics d h).forward_head_posture = some m ∨
      (calculate_metrics d h).shoulder_height_delta = some m ∨
      (calculate_metrics d h).knee_valgus_varus = some m ∨
      (calculate_metrics d h).foot_progression_angle = some m) →
      1/2 < m.confidence) ∧
    ((calculate_metrics d h).thoracic_kyphosis = some m → 7/20 < m.confidence) := by
  constructor
  · rintro (hc | hc | hc | hc | hc)
    · exact cvaRule_conf (by rw [metrics_cva] at hc; exact hc)
    · exact fhpRule_conf (by rw [metrics_fhp] at hc; exact hc)
    · exact shdRule_conf (by rw [metrics_shd] at hc; exact hc)
    · exact kneeRule_conf (by rw [metrics_knee] at hc; exact hc)
    · exact fpaRule_conf (by rw [metrics_fpa] at hc; exact hc)
  · intro hc
    exact kyphosisRule_conf (by rw [metrics_kyphosis] at hc; exact hc)

/-- C10 witness: on the concrete input the knee metric is present and the
invariant instantiates to `1/2 < min (9/10) (min (4/5) (7/10))`. -/
theorem C10_witness :
    ∃ m, (calculate_metrics dW none).knee_valgus_varus = some m ∧
      1/2 < m.confidence := by
  refine ⟨_, knee_present, ?_⟩
  exact (C10_confidence_invariant dW none _).1
    (Or.inr (Or.inr (Or.inr (Or.inl knee_present))))

lemma arctan_lt_self_of_pos {x : ℝ} (h0 : 0 < x) (hx : x < Real.pi / 2) :
    Real.arctan x < x := by
  have h1 : x < Real.tan x := Real.lt_tan h0 hx
  have h2 : Real.arctan x < Real.arctan (Real.tan x) := Real.arctan_strictMono h1
  rwa [Real.arctan_tan (by linarith [Real.pi_pos]) hx] at h2

lemma arctan_tenth_bounds :
    113 * Real.pi / 3600 < Real.arctan (1/10) ∧ Real.arctan (1/10) < 1/10 := by
  have hpi1 : 3.1415 < Real.pi := Real.pi_gt_d4
  have hpi2 : Real.pi < 3.1416 := Real.pi_lt_d4
  constructor
  · have ha0 : (0 : ℝ) < 113 * Real.pi / 3600 := by positivity
    have ha1 : 113 * Real.pi / 3600 < 1/10 := by linarith
    have ha2 : (113 * Real.pi / 3600) ^ 2 < 1/100 := by nlinarith
    have hsin := Real.sin_lt ha0
    have hcos := Real.one_sub_sq_div_two_lt_cos (ne_of_gt ha0)
    have hcos0 : (0 : ℝ) < Real.cos (113 * Real.pi / 3600) := by nlinarith
    have hta : Real.tan (113 * Real.pi / 3600) < 1/10 := by
      rw [Real.tan_eq_sin_div_cos, div_lt_iff₀ hcos0]
      nlinarith
    have harc : Real.arctan (Real.tan (113 * Real.pi / 3600)) = 113 * Real.pi / 3600 :=
      Real.arctan_tan (by linarith) (by linarith)
    calc 113 * Real.pi / 3600 = Real.arctan (Real.tan (113 * Real.pi / 3600)) := harc.symm
      _ < Real.arctan (1/10) := Real.arctan_strictMono hta
  · exact arctan_lt_self_of_pos (by norm_num) (by linarith)

lemma atan2_eval : atan2 (-(1/5) : ℝ) (-(1/50)) = Real.arctan 10 - Real.pi := by
  unfold atan2
  rw [if_neg (by norm_num), if_neg (by norm_num), if_pos (by norm_num)]
  norm_num

lemma round_cva :
    round1R (90 - |degrees (atan2 (-(1/5) : ℝ) (-(1/50)))|) = -5.7 := by
  have hpi1 : 3.1415 < Real.pi := Real.pi_gt_d4
  have hpi2 : Real.pi < 3.1416 := Real.pi_lt_d4
  have hpi0 : 0 < Real.pi := Real.pi_pos
  obtain ⟨htl, htu⟩ := arctan_tenth_bounds
  set t := Real.arctan (1/10) with ht
  have hinv : Real.arctan 10 = Real.pi/2 - t := by
    have hi := Real.arctan_inv_of_pos (show (0:ℝ) < 10 by norm_num)
    rw [show ((10:ℝ)⁻¹) = 1/10 by norm_num] at hi
    rw [ht]
    linarith
  rw [atan2_eval]
  have hlt : Real.arctan 10 - Real.pi < 0 := by
    have := Real.arctan_lt_pi_div_two 10
    linarith
  have habs : |degrees (Real.arctan 10 - Real.pi)| =
      (Real.pi/2 + t) * (180 / Real.pi) := by
    unfold degrees
    rw [abs_of_neg (mul_neg_of_neg_of_pos hlt (by positivity))]
    rw [hinv]
    ring
  rw [habs]
  unfold round1R
  rw [show (10 : ℝ) * (90 - (Real.pi/2 + t) * (180 / Real.pi)) =
      -(1800 * t) / Real.pi from by
    field_simp
    ring]
  have hdiv1 : 1800 * t / Real.pi ≤ 115/2 := by
    rw [div_le_iff₀ hpi0]
    nlinarith
  have hdiv2 : (113 : ℝ)/2 < 1800 * t / Real.pi := by
    rw [lt_div_iff₀ hpi0]
    nlinarith
  have hround : round (-(1800 * t) / Real.pi) = -57 := by
    rw [round_eq, Int.floor_eq_iff]
    constructor
    · push_cast
      rw [neg_div]
      linarith
    · push_cast
      rw [neg_div]
      linarith
  rw [hround]
  push_cast
  norm_num

/-- C8: the craniovertebral angle is `round(90 - |degrees(atan2 dy dx)|, 1)`
with `dx, dy` = ear − shoulder in normalized coordinates; in particular for
ear `(0.40, 0.30)` and shoulder `(0.42, 0.50)` the reported value is `-5.7`. -/
theorem C8_cva_formula :
    (∀ (d : LandmarksDict) (h : Option ℚ) (r : LandmarkSet) (ear s : Landmark)
      (m : Metric), d.right = some r → r 8 = some ear → r 12 = some s →
      (calculate_metrics d h).craniovertebral_angle = some m →
      m.value = round1R (90 - |degrees (atan2 ((ear.y : ℝ) - (s.y : ℝ))
        ((ear.x : ℝ) - (s.x : ℝ)))|)) ∧
    (∃ m, (calculate_metrics dW none).craniovertebral_angle = some m ∧
      m.value = -5.7) := by
  have hgen : ∀ (d : LandmarksDict) (h : Option ℚ) (r : LandmarkSet) (ear s : Landmark)
      (m : Metric), d.right = some r → r 8 = some ear → r 12 = some s →
      (calculate_metrics d h).craniovertebral_angle = some m →
      m.value = round1R (90 - |degrees (atan2 ((ear.y : ℝ) - (s.y : ℝ))
        ((ear.x : ℝ) - (s.x : ℝ)))|) := by
    intro d h r ear s m hr h8 h12 hm
    rw [metrics_cva, hr] at hm
    simp only [cvaRule, h8, h12] at hm
    split at hm
    · cases hm
      rfl
    · exact Option.noConfusion hm
  refine ⟨hgen, ?_⟩
  have h8 : rightW 8 = some (lm (2/5) (3/10) (9/10) 40 30) := rfl
  have h12 : rightW 12 = some (lm (21/50) (1/2) (4/5) 42 50) := rfl
  have hpres : (calculate_metrics dW none).craniovertebral_angle =
      some ⟨round1R (90 - |degrees (atan2 (((3/10 : ℚ) : ℝ) - ((1/2 : ℚ) : ℝ))
        (((2/5 : ℚ) : ℝ) - ((21/50 : ℚ) : ℝ)))|), "degrees",
        min (9/10 : ℚ) (4/5 : ℚ)⟩ := by
    rw [metrics_cva]
    show cvaRule (some rightW) = _
    simp only [cvaRule, h8, h12]
    rw [if_pos ⟨by norm_num [lm], by norm_num [lm]⟩]
    rfl
  refine ⟨_, hpres, ?_⟩
  show round1R (90 - |degrees (atan2 (((3/10 : ℚ) : ℝ) - ((1/2 : ℚ) : ℝ))
    (((2/5 : ℚ) : ℝ) - ((21/50 : ℚ) : ℝ)))|) = -5.7
  rw [show (((3/10 : ℚ) : ℝ) - ((1/2 : ℚ) : ℝ)) = -(1/5) by push_cast; norm_num]
  rw [show (((2/5 : ℚ) : ℝ) - ((21/50 : ℚ) : ℝ)) = -(1/50) by push_cast; norm_num]
  exact round_cva

/-- C8 witness: the general formula instantiated at the spec's concrete
ear and shoulder, with every hypothesis discharged. -/
theorem C8_witness :
    ∃ m, (calculate_metrics dW none).craniovertebral_angle = some m ∧
      m.value = round1R (90 - |degrees (atan2 (((3/10 : ℚ) : ℝ) - ((1/2 : ℚ) : ℝ))
        (((2/5 : ℚ) : ℝ) - ((21/50 : ℚ) : ℝ)))|) := by
  obtain ⟨m, hm, hv⟩ := C8_cva_formula.2
  refine ⟨m, hm, ?_⟩
  exact C8_cva_formula.1 dW none rightW (lm (2/5) (3/10) (9/10) 40 30)
    (lm (21/50) (1/2) (4/5) 42 50) m rfl rfl rfl hm

end PoseAnalysis
